import Mathlib

/-!
# Verification of `nose/case.py` (pynose test-case adapter layer)

Shallow embedding of the universal test wrapper `Test` (the spec's "Adapter"),
`FunctionTestCase` ("FunctionCase") and `MethodTestCase` ("MethodCase") from
`src/nose/case.py`, together with proofs settling the frozen claims about the
module.

Modelling conventions:
* Python exceptions are `PyExc`: `interrupt` models `KeyboardInterrupt` (the
  class named by the dedicated `except KeyboardInterrupt: raise` clause at
  line 115), `error` models every other `Exception` (what `except Exception`
  at line 117 catches).  The `Nat` payload distinguishes exception objects, so
  "re-raised unconverted" is statable.
* Optional capabilities (`result.beforeTest`, `result.afterTest`) are
  `Option (Option PyExc)`: `none` means the attribute is absent (the
  `AttributeError` branch of `Test.beforeTest`/`Test.afterTest`), and
  `some o` means the hook is present and invoking it returns normally
  (`o = none`) or raises `o = some e`.
* External collaborator calls whose behaviour the claims quantify over
  (`runTest`, i.e. the plugin-prepared wrapped callable; `result.addError`)
  are passed as outcome parameters.  The result-proxy factory
  (`self.resultProxy(result, self)`, line 110) is modelled as a total
  function replacing the result object, per spec section 4.1.
-/

set_option autoImplicit false

namespace NoseCase

/-- A Python exception object.  `interrupt id` is a `KeyboardInterrupt`
instance, `error id` an instance of any other `Exception` subclass; the
`id` distinguishes distinct exception objects. -/
inductive PyExc where
  | interrupt (id : Nat)
  | error (id : Nat)
deriving DecidableEq, Repr

/-- Whether the exception is caught by `except KeyboardInterrupt`
(line 115 of `case.py`). -/
def PyExc.isInterrupt : PyExc → Bool
  | .interrupt _ => true
  | .error _ => false

/-- The result-collector object as seen by `Test.run`: the two optional
pass-through hooks probed by `Test.beforeTest` / `Test.afterTest`
(lines 53-69), and the outcome of a `result.addError(self, err)` call
(`none` = returns normally, `some e` = the call itself raises `e`). -/
structure ResultObj where
  beforeTestHook : Option (Option PyExc)
  afterTestHook : Option (Option PyExc)
  addErrorOutcome : Option PyExc

/-- `Test.beforeTest(result)` (lines 62-69): probe `result.beforeTest`;
absence is a no-op (`AttributeError` → `pass`), presence invokes the hook.
Returns (number of hook invocations, exception raised by the hook if any). -/
def beforeTestCall (result : ResultObj) : Nat × Option PyExc :=
  match result.beforeTestHook with
  | none => (0, none)
  | some o => (1, o)

/-- `Test.afterTest(result)` (lines 53-60): probe `result.afterTest`;
absence is a no-op, presence invokes the hook.  Returns (number of hook
invocations, exception raised by the hook if any). -/
def afterTestCall (result : ResultObj) : Nat × Option PyExc :=
  match result.afterTestHook with
  | none => (0, none)
  | some o => (1, o)

/-- The exception (if any) that `Test.beforeTest(result)` raises. -/
def ResultObj.beforeExc (r : ResultObj) : Option PyExc := (beforeTestCall r).2

/-- The exception (if any) that `Test.afterTest(result)` raises. -/
def ResultObj.afterExc (r : ResultObj) : Option PyExc := (afterTestCall r).2

/-- An arbitrary Python object handed to `Test.__init__`: whether
`isinstance(test, collections.Callable)` holds, and its `repr`. -/
structure PyObj where
  callable : Bool
  repr : String
deriving DecidableEq, Repr

/-- The `nose.case.Test` adapter state relevant to `run`: the wrapped test
object and the optional result-proxy factory (`Test.__init__`,
lines 23-39). -/
structure Test where
  test : PyObj
  resultProxy : Option (ResultObj → ResultObj)

/-- `Test.__init__(test, config, resultProxy)` (lines 23-39): raise
`TypeError` when the wrapped object is not callable
(`isinstance(test, collections.Callable)` fails), otherwise store the
fields.  The check runs before anything else in the constructor. -/
def Test.init (test : PyObj) (resultProxy : Option (ResultObj → ResultObj)) :
    Except String Test :=
  if test.callable then
    Except.ok ⟨test, resultProxy⟩
  else
    Except.error ("TypeError: nose.case.Test called with argument " ++ test.repr
      ++ " that is not callable. A callable is required.")

/-- Observable trace of one `Test.run(result)` call: how many times the
`result.beforeTest` hook was invoked, how many times `self.runTest` was
invoked, the exception arguments of each `result.addError` call, how many
times the `result.afterTest` hook was invoked, and the final outcome
(`none` = `run` returns normally, `some e` = `e` propagates to the
caller). -/
structure RunTrace where
  beforeHookCalls : Nat
  runTestCalls : Nat
  addErrorArgs : List PyExc
  afterHookCalls : Nat
  outcome : Option PyExc
deriving DecidableEq, Repr

/-- `if self.resultProxy: result = self.resultProxy(result, self)`
(lines 109-110): the result object the rest of `run` operates on. -/
def effResult (resultProxy : Option (ResultObj → ResultObj))
    (result : ResultObj) : ResultObj :=
  match resultProxy with
  | some p => p result
  | none => result

/-- Body of `Test.run` after the proxy substitution (lines 111-121):

```
try:
    try:
        self.beforeTest(result)
        self.runTest(result)
    except KeyboardInterrupt:
        raise
    except Exception:
        err = sys.exc_info()
        result.addError(self, err)
finally:
    self.afterTest(result)
```

`runTestOutcome` is the outcome of `self.runTest(result)` (the plugin-
prepared callable applied to the result).  Python `finally` semantics: the
`afterTest` call runs on every path, and an exception it raises replaces
any pending exception. -/
def runBody (runTestOutcome : Option PyExc) (r : ResultObj) : RunTrace :=
  let bt := beforeTestCall r
  let inner : Nat × Option PyExc :=
    match bt.2 with
    | some e => (0, some e)
    | none => (1, runTestOutcome)
  let handled : List PyExc × Option PyExc :=
    match inner.2 with
    | none => ([], none)
    | some e =>
      if e.isInterrupt then
        ([], some e)
      else
        match r.addErrorOutcome with
        | none => ([e], none)
        | some e2 => ([e], some e2)
  let aft := afterTestCall r
  { beforeHookCalls := bt.1
    runTestCalls := inner.1
    addErrorArgs := handled.1
    afterHookCalls := aft.1
    outcome :=
      match aft.2 with
      | some e3 => some e3
      | none => handled.2 }

/-- `Test.run(result)` (lines 105-121): substitute the proxied result, then
run the guarded body. -/
def Test.run (t : Test) (runTestOutcome : Option PyExc) (result : ResultObj) :
    RunTrace :=
  runBody runTestOutcome (effResult t.resultProxy result)

/-- Helper: the trace of `runBody` when the before-hook does not raise and
the body raises a non-interrupt error. -/
theorem runBody_body_error (i : Nat) (r : ResultObj)
    (hb : r.beforeExc = none) :
    (runBody (some (PyExc.error i)) r).addErrorArgs = [PyExc.error i] ∧
    (r.addErrorOutcome = none → r.afterExc = none →
      (runBody (some (PyExc.error i)) r).outcome = none) := by
  obtain ⟨bh, ah, ae⟩ := r
  simp only [ResultObj.beforeExc, ResultObj.afterExc, beforeTestCall,
    afterTestCall] at hb ⊢
  cases bh with
  | none =>
    rcases ah with _ | (_ | e3) <;> cases ae <;>
      simp [runBody, beforeTestCall, afterTestCall, PyExc.isInterrupt]
  | some o =>
    subst hb
    rcases ah with _ | (_ | e3) <;> cases ae <;>
      simp [runBody, beforeTestCall, afterTestCall, PyExc.isInterrupt]

/-- Claim C1: for every result object and every wrapped test whose invocation
raises a non-interrupt exception, `Test.run` makes exactly one
`result.addError(self, err)` call carrying that exception, and (when the
result protocol's own calls return normally) `run` returns normally instead
of propagating the exception. -/
theorem run_reports_body_error_once (t : Test) (i : Nat) (r : ResultObj)
    (hb : (effResult t.resultProxy r).beforeExc = none) :
    (Test.run t (some (PyExc.error i)) r).addErrorArgs = [PyExc.error i] ∧
    ((effResult t.resultProxy r).addErrorOutcome = none →
      (effResult t.resultProxy r).afterExc = none →
      (Test.run t (some (PyExc.error i)) r).outcome = none) :=
  runBody_body_error i (effResult t.resultProxy r) hb

/-- Witness for C1 at a concrete adapter and result object. -/
theorem run_reports_body_error_once_witness :
    (Test.run ⟨⟨true, "t"⟩, none⟩ (some (PyExc.error 7))
        ⟨some none, some none, none⟩).addErrorArgs = [PyExc.error 7] ∧
    (Test.run ⟨⟨true, "t"⟩, none⟩ (some (PyExc.error 7))
        ⟨some none, some none, none⟩).outcome = none := by
  have h := run_reports_body_error_once ⟨⟨true, "t"⟩, none⟩ 7
    ⟨some none, some none, none⟩ rfl
  exact ⟨h.1, h.2 rfl rfl⟩

/-- Helper: `runBody` invokes the after-hook exactly once whenever the hook
is present, on every path. -/
theorem runBody_after_hook (body : Option PyExc) (r : ResultObj)
    (o : Option PyExc) (hp : r.afterTestHook = some o) :
    (runBody body r).afterHookCalls = 1 := by
  obtain ⟨bh, ah, ae⟩ := r
  cases ah with
  | none => simp at hp
  | some o2 => simp [runBody, afterTestCall]

/-- Claim C2: every `Test.run(result)` call invokes the after-hook
(`result.afterTest` on the effective, possibly proxied, result object, when
that attribute is present) exactly once, whatever the outcomes of the
before-hook, the test body, the `addError` call and the after-hook itself
(normal return, reported error, or interrupt re-raise). -/
theorem run_after_hook_exactly_once (t : Test) (body : Option PyExc)
    (r : ResultObj) (o : Option PyExc)
    (hp : (effResult t.resultProxy r).afterTestHook = some o) :
    (Test.run t body r).afterHookCalls = 1 :=
  runBody_after_hook body (effResult t.resultProxy r) o hp

/-- Witness for C2 at a concrete adapter and result object (interrupt path). -/
theorem run_after_hook_exactly_once_witness :
    (Test.run ⟨⟨true, "t"⟩, none⟩ (some (PyExc.interrupt 0))
        ⟨none, some none, none⟩).afterHookCalls = 1 :=
  run_after_hook_exactly_once ⟨⟨true, "t"⟩, none⟩ (some (PyExc.interrupt 0))
    ⟨none, some none, none⟩ none rfl

/-- Helper: `runBody` on an interrupting body: no `addError` call, the same
interrupt propagates (when the after-hook does not raise), and a present
after-hook is invoked exactly once. -/
theorem runBody_interrupt (i : Nat) (r : ResultObj)
    (hb : r.beforeExc = none) (hf : r.afterExc = none) :
    (runBody (some (PyExc.interrupt i)) r).addErrorArgs = [] ∧
    (runBody (some (PyExc.interrupt i)) r).outcome = some (PyExc.interrupt i) ∧
    (∀ o, r.afterTestHook = some o →
      (runBody (some (PyExc.interrupt i)) r).afterHookCalls = 1) := by
  obtain ⟨bh, ah, ae⟩ := r
  simp only [ResultObj.beforeExc, ResultObj.afterExc, beforeTestCall,
    afterTestCall] at hb hf
  cases bh with
  | none =>
    rcases ah with _ | (_ | e3) <;>
      simp_all [runBody, beforeTestCall, afterTestCall, PyExc.isInterrupt]
  | some o =>
    subst hb
    rcases ah with _ | (_ | e3) <;>
      simp_all [runBody, beforeTestCall, afterTestCall, PyExc.isInterrupt]

/-- Claim C3: when the test body raises a `KeyboardInterrupt`, `Test.run`
re-raises that very interrupt (no `addError` call is made for it), and the
after-hook, when present, still fires exactly once before the interrupt
leaves `run` (stated with a before-hook and after-hook that return
normally, so the interrupt is the pending exception). -/
theorem run_interrupt_reraised (t : Test) (i : Nat) (r : ResultObj)
    (hb : (effResult t.resultProxy r).beforeExc = none)
    (hf : (effResult t.resultProxy r).afterExc = none) :
    (Test.run t (some (PyExc.interrupt i)) r).addErrorArgs = [] ∧
    (Test.run t (some (PyExc.interrupt i)) r).outcome
      = some (PyExc.interrupt i) ∧
    (∀ o, (effResult t.resultProxy r).afterTestHook = some o →
      (Test.run t (some (PyExc.interrupt i)) r).afterHookCalls = 1) :=
  runBody_interrupt i (effResult t.resultProxy r) hb hf

/-- Witness for C3 at a concrete adapter and result object. -/
theorem run_interrupt_reraised_witness :
    (Test.run ⟨⟨true, "t"⟩, none⟩ (some (PyExc.interrupt 5))
        ⟨some none, some none, none⟩).addErrorArgs = [] ∧
    (Test.run ⟨⟨true, "t"⟩, none⟩ (some (PyExc.interrupt 5))
        ⟨some none, some none, none⟩).outcome = some (PyExc.interrupt 5) ∧
    (Test.run ⟨⟨true, "t"⟩, none⟩ (some (PyExc.interrupt 5))
        ⟨some none, some none, none⟩).afterHookCalls = 1 := by
  have h := run_interrupt_reraised ⟨⟨true, "t"⟩, none⟩ 5
    ⟨some none, some none, none⟩ rfl rfl
  exact ⟨h.1, h.2.1, h.2.2 none rfl⟩

/-- Helper: `runBody` when the before-hook raises a non-interrupt error:
the body is never invoked, the error is reported once via `addError`, the
after-hook (when present) still fires once, and `run` returns normally when
the result protocol's own calls return normally. -/
theorem runBody_before_error (i : Nat) (body : Option PyExc) (r : ResultObj)
    (hb : r.beforeExc = some (PyExc.error i)) :
    (runBody body r).addErrorArgs = [PyExc.error i] ∧
    (runBody body r).runTestCalls = 0 ∧
    (∀ o, r.afterTestHook = some o → (runBody body r).afterHookCalls = 1) ∧
    (r.addErrorOutcome = none → r.afterExc = none →
      (runBody body r).outcome = none) := by
  obtain ⟨bh, ah, ae⟩ := r
  simp only [ResultObj.beforeExc, ResultObj.afterExc, beforeTestCall,
    afterTestCall] at hb ⊢
  cases bh with
  | none => simp at hb
  | some o =>
    subst hb
    rcases ah with _ | (_ | e3) <;> cases ae <;>
      simp [runBody, beforeTestCall, afterTestCall, PyExc.isInterrupt]

/-- Claim C10: when the `result.beforeTest` hook itself raises a
non-interrupt exception, `Test.run` catches it and reports it via
`result.addError` instead of propagating it (the body is never reached),
and the after-hook still fires — the containment boundary covers the
before-hook. -/
theorem run_before_hook_error_contained (t : Test) (i : Nat)
    (body : Option PyExc) (r : ResultObj)
    (hb : (effResult t.resultProxy r).beforeExc = some (PyExc.error i)) :
    (Test.run t body r).addErrorArgs = [PyExc.error i] ∧
    (Test.run t body r).runTestCalls = 0 ∧
    (∀ o, (effResult t.resultProxy r).afterTestHook = some o →
      (Test.run t body r).afterHookCalls = 1) ∧
    ((effResult t.resultProxy r).addErrorOutcome = none →
      (effResult t.resultProxy r).afterExc = none →
      (Test.run t body r).outcome = none) :=
  runBody_before_error i body (effResult t.resultProxy r) hb

/-- Witness for C10 at a concrete adapter and result object. -/
theorem run_before_hook_error_contained_witness :
    (Test.run ⟨⟨true, "t"⟩, none⟩ none
        ⟨some (some (PyExc.error 3)), some none, none⟩).addErrorArgs
      = [PyExc.error 3] ∧
    (Test.run ⟨⟨true, "t"⟩, none⟩ none
        ⟨some (some (PyExc.error 3)), some none, none⟩).runTestCalls = 0 ∧
    (Test.run ⟨⟨true, "t"⟩, none⟩ none
        ⟨some (some (PyExc.error 3)), some none, none⟩).afterHookCalls = 1 ∧
    (Test.run ⟨⟨true, "t"⟩, none⟩ none
        ⟨some (some (PyExc.error 3)), some none, none⟩).outcome = none := by
  have h := run_before_hook_error_contained ⟨⟨true, "t"⟩, none⟩ 3 none
    ⟨some (some (PyExc.error 3)), some none, none⟩ rfl
  exact ⟨h.1, h.2.1, h.2.2.1 none rfl, h.2.2.2 rfl rfl⟩

/-- Claim C4: constructing the `Test` adapter over a non-callable object
fails at construction time with the descriptive `TypeError` of
`Test.__init__`; the check is the first statement of the constructor, so it
is never deferred to run time. -/
theorem init_noncallable_type_error (test : PyObj)
    (resultProxy : Option (ResultObj → ResultObj))
    (h : test.callable = false) :
    Test.init test resultProxy
      = Except.error ("TypeError: nose.case.Test called with argument "
        ++ test.repr ++ " that is not callable. A callable is required.") := by
  simp [Test.init, h]

/-- Witness for C4 at a concrete non-callable object. -/
theorem init_noncallable_type_error_witness :
    Test.init ⟨false, "42"⟩ none
      = Except.error ("TypeError: nose.case.Test called with argument "
        ++ "42" ++ " that is not callable. A callable is required.") :=
  init_noncallable_type_error ⟨false, "42"⟩ none rfl

/-- A Python function object: the identity data relevant to naming and
addressing. -/
structure PyFunc where
  module : String
  name : String
  doc : Option String
deriving DecidableEq, Repr

/-- `nose.case.FunctionTestCase` state as set by `__init__`
(lines 184-201): the test function, optional explicit setup/teardown
callables, the argument tuple, and the optional naming descriptor. -/
structure FunctionTestCase where
  test : PyFunc
  setUpFunc : Option PyFunc
  tearDownFunc : Option PyFunc
  arg : List Nat
  descriptor : Option PyFunc
deriving DecidableEq, Repr

/-- `FunctionTestCase.address()` (lines 203-210): `test_address` is the
external `nose.util.test_address` collaborator, returning the
`(source-location, module-name, qualified-name)` tuple of an object.
The descriptor is used when it `is not None`, else the function itself. -/
def FunctionTestCase.address
    (test_address : PyFunc → String × String × String)
    (c : FunctionTestCase) : String × String × String :=
  match c.descriptor with
  | some d => test_address d
  | none => test_address c.test

/-- Claim C5: a `FunctionTestCase` built with a non-null descriptor `D`
derives `address()` from `D`; with no descriptor, from the test function
itself. -/
theorem functionTestCase_address_from_descriptor
    (test_address : PyFunc → String × String × String)
    (c : FunctionTestCase) :
    (∀ d, c.descriptor = some d →
      FunctionTestCase.address test_address c = test_address d) ∧
    (c.descriptor = none →
      FunctionTestCase.address test_address c = test_address c.test) := by
  constructor
  · intro d hd
    simp [FunctionTestCase.address, hd]
  · intro hd
    simp [FunctionTestCase.address, hd]

/-- Witness for C5: a concrete case with a descriptor whose address differs
from the wrapped function's, and a concrete case without one. -/
theorem functionTestCase_address_from_descriptor_witness :
    FunctionTestCase.address (fun f => ("src", f.module, f.name))
        ⟨⟨"m", "gen_child", none⟩, none, none, [1], some ⟨"m", "gen", none⟩⟩
      = ("src", "m", "gen") ∧
    FunctionTestCase.address (fun f => ("src", f.module, f.name))
        ⟨⟨"m", "plain", none⟩, none, none, [], none⟩
      = ("src", "m", "plain") :=
  ⟨(functionTestCase_address_from_descriptor (fun f => ("src", f.module, f.name))
      ⟨⟨"m", "gen_child", none⟩, none, none, [1], some ⟨"m", "gen", none⟩⟩).1
      ⟨"m", "gen", none⟩ rfl,
   (functionTestCase_address_from_descriptor (fun f => ("src", f.module, f.name))
      ⟨⟨"m", "plain", none⟩, none, none, [], none⟩).2 rfl⟩

/-- A Python class object: its module, name, and the instance attributes
its zero-argument constructor sets on a fresh instance. -/
structure PyClass where
  module : String
  name : String
  initAttrs : List (String × Nat)
deriving DecidableEq, Repr

/-- The `method` argument of `MethodTestCase.__init__`: either a bound
method (carrying `__self__.__class__` and `__name__`) or a plain function
(for which `inspect.isfunction` is true). -/
inductive PyMethod where
  | bound (cls : PyClass) (name : String)
  | function (name : String)
deriving DecidableEq, Repr

/-- `inspect.isfunction(method)`: true exactly on plain (unbound) function
objects, false on bound methods. -/
def isfunction : PyMethod → Bool
  | .bound _ _ => false
  | .function _ => true

/-- The Python object heap, restricted to what `MethodTestCase` touches:
a fresh-id allocator and the instance-attribute store (newest binding
first, as attribute assignment overwrites). -/
structure Heap where
  nextId : Nat
  attrs : List ((Nat × String) × Nat)
deriving DecidableEq, Repr

/-- Read attribute `k` of instance `i` (most recent binding wins). -/
def Heap.getAttr (h : Heap) (i : Nat) (k : String) : Option Nat :=
  (h.attrs.find? (fun e => e.1.1 == i && e.1.2 == k)).map (fun e => e.2)

/-- Set attribute `k` of instance `i` to `v` (`self.k = v` inside a test
body). -/
def Heap.setAttr (h : Heap) (i : Nat) (k : String) (v : Nat) : Heap :=
  { nextId := h.nextId, attrs := ((i, k), v) :: h.attrs }

/-- `self.cls()` (line 291): allocate a fresh instance of `cls` — a new
object id never used before — and run the zero-argument constructor, which
sets the class's `initAttrs` on the fresh instance. -/
def Heap.alloc (h : Heap) (cls : PyClass) : Nat × Heap :=
  (h.nextId,
   { nextId := h.nextId + 1,
     attrs := (cls.initAttrs.map (fun kv => ((h.nextId, kv.1), kv.2)))
       ++ h.attrs })

/-- The callable a `MethodTestCase` will execute: the explicitly passed
`test` argument, or the method's name rebound on the fresh instance
(`getattr(self.inst, method_name)`, line 294). -/
inductive CaseCallable where
  | given (f : PyFunc)
  | rebound (inst : Nat) (methodName : String)
deriving DecidableEq, Repr

/-- `nose.case.MethodTestCase` state as set by `__init__`
(lines 265-295). -/
structure MethodTestCase where
  method : PyMethod
  test : CaseCallable
  arg : List Nat
  descriptor : Option PyFunc
  cls : PyClass
  inst : Nat
deriving DecidableEq, Repr

/-- `MethodTestCase.__init__(method, test, arg, descriptor)`
(lines 265-295): store the arguments; raise `ValueError` when
`isfunction(method)` (the `.function` variant is exactly where
`inspect.isfunction` holds); otherwise derive the owning class from
`method.__self__.__class__`, construct a fresh instance of it on the heap,
and, when no explicit `test` was passed, rebind the method's name on that
fresh instance. -/
def MethodTestCase.init (method : PyMethod) (test : Option PyFunc)
    (arg : List Nat) (descriptor : Option PyFunc) (h : Heap) :
    Except String (MethodTestCase × Heap) :=
  match method with
  | .function _ =>
    Except.error ("ValueError: Unbound methods must be wrapped using "
      ++ "pyversion.unbound_method before passing to MethodTestCase")
  | .bound cls mname =>
    let a := h.alloc cls
    let t : CaseCallable :=
      match test with
      | some f => CaseCallable.given f
      | none => CaseCallable.rebound a.1 mname
    Except.ok (⟨method, t, arg, descriptor, cls, a.1⟩, a.2)

/-- Claim C7: `MethodTestCase` construction from a plain (unbound) function
fails immediately with the explicit `ValueError`, and any construction that
succeeds was given a bound method (so an owning class was available). -/
theorem methodTestCase_rejects_plain_function :
    (∀ (n : String) (test : Option PyFunc) (arg : List Nat)
        (descriptor : Option PyFunc) (h : Heap),
      MethodTestCase.init (PyMethod.function n) test arg descriptor h
        = Except.error ("ValueError: Unbound methods must be wrapped using "
          ++ "pyversion.unbound_method before passing to MethodTestCase")) ∧
    (∀ (m : PyMethod) (test : Option PyFunc) (arg : List Nat)
        (descriptor : Option PyFunc) (h : Heap)
        (c : MethodTestCase) (h2 : Heap),
      MethodTestCase.init m test arg descriptor h = Except.ok (c, h2) →
      ∃ cls mname, m = PyMethod.bound cls mname) := by
  constructor
  · intro n test arg descriptor h
    rfl
  · intro m test arg descriptor h c h2 hok
    cases m with
    | bound cls mname => exact ⟨cls, mname, rfl⟩
    | function n => simp [MethodTestCase.init] at hok

/-- Witness for C7: the rejection evaluated at a concrete plain function. -/
theorem methodTestCase_rejects_plain_function_witness :
    MethodTestCase.init (PyMethod.function "test_it") none [] none ⟨0, []⟩
      = Except.error ("ValueError: Unbound methods must be wrapped using "
        ++ "pyversion.unbound_method before passing to MethodTestCase") :=
  methodTestCase_rejects_plain_function.1 "test_it" none [] none ⟨0, []⟩

/-- Helper: writing an attribute of instance `i` leaves every attribute of a
different instance `j` unchanged. -/
theorem Heap.getAttr_setAttr_ne (h : Heap) (i j : Nat) (k k2 : String)
    (v : Nat) (hij : i ≠ j) :
    (h.setAttr i k v).getAttr j k2 = h.getAttr j k2 := by
  have hb : (i == j) = false := beq_eq_false_iff_ne.mpr hij
  simp [Heap.getAttr, Heap.setAttr, List.find?, hb]

/-- Helper: a successful `MethodTestCase.__init__` hands the case the
allocator's fresh id and advances the allocator past it. -/
theorem methodTestCase_init_fresh (cls : PyClass) (mname : String)
    (test : Option PyFunc) (arg : List Nat) (descriptor : Option PyFunc)
    (h h2 : Heap) (c : MethodTestCase)
    (hok : MethodTestCase.init (PyMethod.bound cls mname) test arg descriptor h
      = Except.ok (c, h2)) :
    c.inst = h.nextId ∧ h2.nextId = h.nextId + 1 := by
  cases test <;>
    simp only [MethodTestCase.init, Heap.alloc, Except.ok.injEq,
      Prod.mk.injEq] at hok <;>
  · obtain ⟨hc, hh⟩ := hok
    subst hc
    subst hh
    exact ⟨rfl, rfl⟩

/-- Claim C6: two `MethodTestCase`s constructed in sequence (from bound
methods, of the same class or not) own distinct fresh instances, and
mutating any attribute of the first case's instance during its test body is
not observable on the second case's instance. -/
theorem methodTestCase_isolation (cls1 cls2 : PyClass) (mn1 mn2 : String)
    (t1 t2 : Option PyFunc) (a1 a2 : List Nat) (d1 d2 : Option PyFunc)
    (h0 h1 h2 : Heap) (c1 c2 : MethodTestCase)
    (e1 : MethodTestCase.init (PyMethod.bound cls1 mn1) t1 a1 d1 h0
      = Except.ok (c1, h1))
    (e2 : MethodTestCase.init (PyMethod.bound cls2 mn2) t2 a2 d2 h1
      = Except.ok (c2, h2)) :
    c1.inst ≠ c2.inst ∧
    ∀ (k : String) (v : Nat) (k2 : String),
      (h2.setAttr c1.inst k v).getAttr c2.inst k2 = h2.getAttr c2.inst k2 := by
  obtain ⟨hi1, hn1⟩ :=
    methodTestCase_init_fresh cls1 mn1 t1 a1 d1 h0 h1 c1 e1
  obtain ⟨hi2, hn2⟩ :=
    methodTestCase_init_fresh cls2 mn2 t2 a2 d2 h1 h2 c2 e2
  have hne : c1.inst ≠ c2.inst := by omega
  exact ⟨hne, fun k v k2 =>
    Heap.getAttr_setAttr_ne h2 c1.inst c2.inst k k2 v hne⟩

/-- A concrete test class for the C6 witness. -/
def sampleClass : PyClass := ⟨"m", "TC", []⟩

/-- Witness for C6: two concrete cases built from methods of the same class
on an initially empty heap. -/
theorem methodTestCase_isolation_witness :
    (⟨PyMethod.bound sampleClass "test_a", CaseCallable.rebound 0 "test_a",
        [], none, sampleClass, 0⟩ : MethodTestCase).inst
      ≠ (⟨PyMethod.bound sampleClass "test_b",
        CaseCallable.rebound 1 "test_b", [], none, sampleClass, 1⟩ :
          MethodTestCase).inst ∧
    ∀ (k : String) (v : Nat) (k2 : String),
      ((⟨2, []⟩ : Heap).setAttr
          (⟨PyMethod.bound sampleClass "test_a",
            CaseCallable.rebound 0 "test_a", [], none, sampleClass, 0⟩ :
              MethodTestCase).inst k v).getAttr
        (⟨PyMethod.bound sampleClass "test_b",
          CaseCallable.rebound 1 "test_b", [], none, sampleClass, 1⟩ :
            MethodTestCase).inst k2
        = (⟨2, []⟩ : Heap).getAttr
          (⟨PyMethod.bound sampleClass "test_b",
            CaseCallable.rebound 1 "test_b", [], none, sampleClass, 1⟩ :
              MethodTestCase).inst k2 :=
  methodTestCase_isolation sampleClass sampleClass "test_a" "test_b"
    none none [] [] none none ⟨0, []⟩ ⟨1, []⟩ ⟨2, []⟩
    ⟨PyMethod.bound sampleClass "test_a", CaseCallable.rebound 0 "test_a",
      [], none, sampleClass, 0⟩
    ⟨PyMethod.bound sampleClass "test_b", CaseCallable.rebound 1 "test_b",
      [], none, sampleClass, 1⟩
    rfl rfl

/-- The plugin-chain answers relevant to `Test.__str__` and
`Test.shortDescription`: the value `plugins.describeTest(self)` returns and
the value `plugins.testName(self)` returns (`none` models Python `None`). -/
structure Plugins where
  describeTest : Option String
  testName : Option String
deriving DecidableEq, Repr

/-- The wrapped test as seen by `Test.__str__` / `Test.shortDescription`:
its string form `str(self.test)`, and the value its own
`shortDescription()` call yields (`none` when the call raises — swallowed
by the `except Exception: pass` at lines 148-149 — or returns `None`). -/
structure WrappedTest where
  str : String
  shortDescription : Option String
deriving DecidableEq, Repr

/-- `Test.__str__` (lines 44-48): the plugin `testName` when not `None`,
else `str(self.test)`. -/
def Test.strForm (p : Plugins) (t : WrappedTest) : String :=
  match p.testName with
  | some n => n
  | none => t.str

/-- `Test.shortDescription` (lines 133-155): return the plugin description
when not `None`; otherwise call the wrapped test's own
`shortDescription()` and suppress the answer exactly when it equals
`str(self.test)` (the docstring-stripping at lines 138-145 mutates the
wrapped test before that call and is reflected in the call's result). -/
def Test.shortDescription (p : Plugins) (t : WrappedTest) : Option String :=
  match p.describeTest with
  | some d => some d
  | none =>
    match t.shortDescription with
    | none => none
    | some d => if d = t.str then none else some d

/-- The description `Test.shortDescription` would return with the
duplicate-suppression check removed: plugin description first, else the
wrapped test's own. -/
def Test.rawDescription (p : Plugins) (t : WrappedTest) : Option String :=
  match p.describeTest with
  | some d => some d
  | none => t.shortDescription

/-- Counterexample to claim C8 as stated: a plugin-supplied description
that exactly equals the adapter's string form is returned, not suppressed.
With no `testName` plugin, the adapter's string form is `str(self.test)`
= "m.f"; `describeTest` yields the identical "m.f", yet
`shortDescription()` returns it. -/
theorem shortDescription_duplicate_claim_false :
    ¬ (∀ (p : Plugins) (t : WrappedTest),
        Test.rawDescription p t = some (Test.strForm p t) →
        Test.shortDescription p t = none) := by
  intro hclaim
  have h := hclaim ⟨some "m.f", none⟩ ⟨"m.f", none⟩ rfl
  simp [Test.shortDescription] at h

/-- Claim C8 (amended): the duplicate-suppression check applies only to the
fallback path — a plugin-supplied description is returned unchanged, and
when the plugin yields none, the wrapped test's own description is
suppressed exactly when it equals the wrapped test's string form
`str(self.test)` (not the adapter's plugin-derived display name); with no
description at all the result is absent. -/
theorem shortDescription_spec (p : Plugins) (t : WrappedTest) :
    (∀ d, p.describeTest = some d → Test.shortDescription p t = some d) ∧
    (p.describeTest = none → ∀ d, t.shortDescription = some d →
      (Test.shortDescription p t = none ↔ d = t.str)) ∧
    (p.describeTest = none → t.shortDescription = none →
      Test.shortDescription p t = none) := by
  refine ⟨fun d hd => ?_, fun hp d hd => ?_, fun hp hd => ?_⟩
  · simp [Test.shortDescription, hd]
  · by_cases hds : d = t.str <;>
      simp [Test.shortDescription, hp, hd, hds]
  · simp [Test.shortDescription, hp, hd]

/-- Witness for the amended C8: with no plugin description and the wrapped
test's description equal to its string form, the adapter suppresses the
duplicate; with a differing description, it is returned. -/
theorem shortDescription_spec_witness :
    Test.shortDescription ⟨none, none⟩ ⟨"m.f", some "m.f"⟩ = none ∧
    Test.shortDescription ⟨none, none⟩ ⟨"m.f", some "checks f"⟩
      = some "checks f" := by
  constructor
  · exact ((shortDescription_spec ⟨none, none⟩ ⟨"m.f", some "m.f"⟩).2.1
      rfl "m.f" rfl).mpr rfl
  · simp [Test.shortDescription]

/-- The wrapped test as seen by `Test._context` (lines 87-100): the
explicit `context` attribute (`none` = `AttributeError`), the `__class__`
attribute (guarded by its own `try`/`except` in the source), and the value
`resolve_name(self.test.__module__)` yields (`none` when that block raises
`AttributeError`).  Contexts are identified by name. -/
structure CtxTest where
  contextAttr : Option String
  classAttr : Option String
  moduleResolved : Option String
deriving DecidableEq, Repr

/-- `Test._context` (lines 87-100): first of the explicit `context`
attribute, the wrapped test's class, the resolved module; `None` when all
three blocks fall through. -/
def Test.contextGet (t : CtxTest) : Option String :=
  match t.contextAttr with
  | some c => some c
  | none =>
    match t.classAttr with
    | some c => some c
    | none => t.moduleResolved

/-- `context = property(_context, None, None, ...)` (lines 101-103): each
read of `adapter.context` evaluates `_context` against the wrapped test's
state at that moment.  `Test.__init__` stores no cached context field and
the property installs none, so an access sequence observing states
`states` yields `_context` of each state in turn. -/
def Test.contextAccesses (states : List CtxTest) : List (Option String) :=
  states.map Test.contextGet

/-- Modelled from the spec: a memoized `context` accessor ("computed at
most once per adapter, with repeated accesses returning the cached value")
computes `_context` at the first access and returns that cached value on
every later access, whatever the wrapped test's state then is. -/
def memoizedContextAccesses (states : List CtxTest) : List (Option String) :=
  match states with
  | [] => []
  | s :: rest => Test.contextGet s :: rest.map (fun _ => Test.contextGet s)

/-- Counterexample to claim C9 as stated: the `context` property is a plain
property, not memoized.  With the wrapped test's mutable `context`
attribute set to "A" at the first access and to "B" at the second, the
code returns "A" then "B", while a memoized accessor would return the
cached "A" twice. -/
theorem context_not_memoized :
    Test.contextAccesses
        [⟨some "A", some "TC", none⟩, ⟨some "B", some "TC", none⟩]
      ≠ memoizedContextAccesses
        [⟨some "A", some "TC", none⟩, ⟨some "B", some "TC", none⟩] := by
  decide

/-- Modelled from the spec: the ordered fallback chain for the context —
explicit attribute, then owning class, then resolved module, else
absent. -/
def contextChainSpec (t : CtxTest) : Option String :=
  t.contextAttr.orElse fun _ => t.classAttr.orElse fun _ => t.moduleResolved

/-- Claim C9 (amended): the `context` property is lazy but not memoized —
every access evaluates `_context` against the wrapped test's current
state — and each evaluation resolves the spec's fallback chain: the
explicit `context` attribute, else the wrapped test's class, else the
resolved module, else absent. -/
theorem context_per_access_chain (states : List CtxTest) :
    Test.contextAccesses states = states.map contextChainSpec := by
  unfold Test.contextAccesses
  refine List.map_congr_left fun t _ => ?_
  obtain ⟨ca, cl, mo⟩ := t
  cases ca <;> cases cl <;>
    simp [Test.contextGet, contextChainSpec, Option.orElse]

end NoseCase
